import Mathlib

/-!
Shallow embedding of `src/S3Pipeline.py`: a thin facade over an object-storage
SDK client.  The SDK boundary (boto3 `s3` client) is modelled as a record of
stateful operations over an abstract external-world state `σ`; the pandas CSV
decoder is a stateful function parameter.  Python exceptions are modelled by
the inductive `PyExc`; a method call returns an `Except` value (`.error` means
the Python call raised) together with the post-state of the world, the emitted
log lines, and the (possibly updated) facade object, mirroring Python method
semantics where `self` could be mutated by attribute assignment.
-/

set_option autoImplicit false

/-- Python exception classes relevant to the code: `botocore.exceptions.ClientError`
(the storage service's native error type), `pandas.errors.EmptyDataError`, and
any other `Exception`. -/
inductive PyExc where
  | clientError (msg : String)
  | emptyDataError
  | otherError (msg : String)
deriving DecidableEq, Repr

/-- Python `str(e)` of an exception, as used in the f-string log messages. -/
def PyExc.pyStr : PyExc → String
  | .clientError m => m
  | .emptyDataError => "No columns to parse from file"
  | .otherError m => m

/-- Raw byte content fetched from the service (`response["Body"].read()`). -/
abbrev Bytes := List Nat

/-- Result of `pd.read_csv`: an opaque parsed table. -/
structure DataFrame where
  rows : List (List String)
deriving DecidableEq, Repr

/-- One entry of a page's `Contents` list; the code reads its `"Key"` field. -/
structure S3Object where
  key : String
deriving DecidableEq, Repr

/-- One page of the paginated `list_objects_v2` response: the `"Contents"` key
may be absent (`none`). -/
structure Page where
  contents : Option (List S3Object)
deriving DecidableEq, Repr

/-- The page iterator produced by `paginator.paginate(...)`: it yields `pages`
in order and then, if `tailErr = some e`, raises `e` (pages are fetched lazily,
so a service error can surface mid-iteration after some pages were consumed). -/
structure PageStream where
  pages : List Page
  tailErr : Option PyExc
deriving DecidableEq, Repr

/-- One entry of the `list_buckets` response's `"Buckets"` list; the code reads
its `"Name"` field. -/
structure BucketEntry where
  name : String
deriving DecidableEq, Repr

/-- The `list_buckets` service response (its `"Buckets"` field). -/
structure ListBucketsResponse where
  buckets : List BucketEntry
deriving DecidableEq, Repr

/-- A paginator handle: `paginate` takes `Bucket` and `Prefix` and the world
state, returning the page iterator and the post-state. -/
structure Paginator (σ : Type) where
  paginate : String → String → σ → PageStream × σ

/-- The SDK client handle (`boto3.client("s3")`): each operation acts on the
external world `σ` and either returns a value or raises a `PyExc`. -/
structure S3ClientModel (σ : Type) where
  upload_file : String → String → String → σ → Except PyExc Unit × σ
  download_file : String → String → String → σ → Except PyExc Unit × σ
  get_object : String → String → σ → Except PyExc Bytes × σ
  list_buckets : σ → Except PyExc ListBucketsResponse × σ
  get_paginator : String → σ → Except PyExc (Paginator σ) × σ

/-- Handle returned by `logging.getLogger(__name__)`; logging via this handle
writes to an external sink and does not mutate the facade's attributes. -/
structure Logger where
  name : String
deriving DecidableEq, Repr

/-- The facade object: its attributes are exactly those assigned in
`__init__` (`self.logger` and `self.s3_client`). -/
structure S3Pipeline (σ : Type) where
  logger : Logger
  s3_client : S3ClientModel σ

/-- Outcome of one Python method call on the facade: the returned value (or the
raised exception), the facade object after the call (reflecting any attribute
assignment in the body — there are none outside `__init__`), the log lines
emitted, and the external-world post-state. -/
structure CallOut (σ : Type) (α : Type) where
  ret : Except PyExc α
  self : S3Pipeline σ
  log : List String
  post : σ

/-- Embedding of `S3Pipeline.__init__`: `boto3.client("s3")` wrapped in
`try/except Exception` that logs and re-raises.  Returns the constructed
object or the propagated exception, together with the log lines. -/
def S3Pipeline.init {σ : Type} (boto3_client : String → Except PyExc (S3ClientModel σ)) :
    Except PyExc (S3Pipeline σ) × List String :=
  match boto3_client "s3" with
  | .ok c =>
      (.ok { logger := { name := "src.S3Pipeline" }, s3_client := c },
       ["Successfully initialized S3 client"])
  | .error e =>
      (.error e, ["Failed to initialize S3 client: " ++ e.pyStr])

/-- Embedding of `upload_file`: default `object_name` to `file_path`, call the
SDK transfer, return `True`; `except ClientError` logs and returns `False`;
any other exception propagates. -/
def S3Pipeline.upload_file {σ : Type} (p : S3Pipeline σ) (file_path bucket_name : String)
    (object_name : Option String) (s : σ) : CallOut σ Bool :=
  let obj := object_name.getD file_path
  match p.s3_client.upload_file file_path bucket_name obj s with
  | (.ok _, s1) =>
      { ret := .ok true, self := p,
        log := ["Successfully uploaded " ++ file_path ++ " to " ++ bucket_name ++ "/" ++ obj],
        post := s1 }
  | (.error (.clientError m), s1) =>
      { ret := .ok false, self := p,
        log := ["Failed to upload file: " ++ m], post := s1 }
  | (.error e, s1) =>
      { ret := .error e, self := p, log := [], post := s1 }

/-- Embedding of `download_file`: call the SDK transfer, return `True`;
`except ClientError` logs and returns `False`; any other exception
propagates. -/
def S3Pipeline.download_file {σ : Type} (p : S3Pipeline σ) (bucket_name object_name file_path : String)
    (s : σ) : CallOut σ Bool :=
  match p.s3_client.download_file bucket_name object_name file_path s with
  | (.ok _, s1) =>
      { ret := .ok true, self := p,
        log := ["Successfully downloaded " ++ bucket_name ++ "/" ++ object_name ++ " to " ++ file_path],
        post := s1 }
  | (.error (.clientError m), s1) =>
      { ret := .ok false, self := p,
        log := ["Failed to download file: " ++ m], post := s1 }
  | (.error e, s1) =>
      { ret := .error e, self := p, log := [], post := s1 }

/-- Embedding of `read_csv_to_dataframe`: `get_object` then the `pandas`
decoder (`pd_read_csv`, a parameter standing for `pd.read_csv` with the
forwarded options already applied).  The three `except` clauses — `ClientError`,
`pd.errors.EmptyDataError`, `Exception` — each log and return `None`; they
guard the whole `try` body, so any exception from either step is dispatched by
its class. -/
def S3Pipeline.read_csv_to_dataframe {σ : Type} (p : S3Pipeline σ)
    (pd_read_csv : Bytes → σ → Except PyExc DataFrame × σ)
    (bucket_name object_key : String) (s : σ) : CallOut σ (Option DataFrame) :=
  match p.s3_client.get_object bucket_name object_key s with
  | (.error (.clientError m), s1) =>
      { ret := .ok none, self := p,
        log := ["Failed to read CSV from S3: " ++ m], post := s1 }
  | (.error .emptyDataError, s1) =>
      { ret := .ok none, self := p, log := ["CSV file is empty"], post := s1 }
  | (.error (.otherError m), s1) =>
      { ret := .ok none, self := p,
        log := ["Error processing CSV file: " ++ m], post := s1 }
  | (.ok csv_content, s1) =>
      match pd_read_csv csv_content s1 with
      | (.ok df, s2) =>
          { ret := .ok (some df), self := p,
            log := ["Successfully read CSV from " ++ bucket_name ++ "/" ++ object_key],
            post := s2 }
      | (.error (.clientError m), s2) =>
          { ret := .ok none, self := p,
            log := ["Failed to read CSV from S3: " ++ m], post := s2 }
      | (.error .emptyDataError, s2) =>
          { ret := .ok none, self := p, log := ["CSV file is empty"], post := s2 }
      | (.error (.otherError m), s2) =>
          { ret := .ok none, self := p,
            log := ["Error processing CSV file: " ++ m], post := s2 }

/-- Embedding of `list_buckets`: map the `"Name"` field over the response's
`"Buckets"` list; `except ClientError` logs and returns `[]`. -/
def S3Pipeline.list_buckets {σ : Type} (p : S3Pipeline σ) (s : σ) : CallOut σ (List String) :=
  match p.s3_client.list_buckets s with
  | (.ok response, s1) =>
      let buckets := response.buckets.map (fun b => b.name)
      { ret := .ok buckets, self := p,
        log := ["Successfully retrieved " ++ toString buckets.length ++ " buckets"],
        post := s1 }
  | (.error (.clientError m), s1) =>
      { ret := .ok [], self := p,
        log := ["Failed to list buckets: " ++ m], post := s1 }
  | (.error e, s1) =>
      { ret := .error e, self := p, log := [], post := s1 }

/-- Keys contributed by one page: `[obj["Key"] for obj in page["Contents"]]`
when the `"Contents"` key is present, nothing otherwise. -/
def pageKeys (page : Page) : List String :=
  match page.contents with
  | some objs => objs.map (fun o => o.key)
  | none => []

/-- The `for page in paginator.paginate(...)` loop of `list_objects`: extend
the local accumulator `objects` page by page; if the iterator raises after the
listed pages, the accumulator (a local variable) is abandoned and the
exception propagates to the `except` clause. -/
def listObjectsLoop : List String → List Page → Option PyExc → Except PyExc (List String)
  | acc, [], none => .ok acc
  | _, [], some e => .error e
  | acc, page :: rest, err => listObjectsLoop (acc ++ pageKeys page) rest err

/-- Embedding of `list_objects`: obtain the paginator, run the accumulation
loop over its page iterator; `except ClientError` (whether raised by
`get_paginator` or during iteration) logs and returns `[]`. -/
def S3Pipeline.list_objects {σ : Type} (p : S3Pipeline σ) (bucket_name pfx : String)
    (s : σ) : CallOut σ (List String) :=
  match p.s3_client.get_paginator "list_objects_v2" s with
  | (.error (.clientError m), s1) =>
      { ret := .ok [], self := p,
        log := ["Failed to list objects: " ++ m], post := s1 }
  | (.error e, s1) =>
      { ret := .error e, self := p, log := [], post := s1 }
  | (.ok paginator, s1) =>
      let res := paginator.paginate bucket_name pfx s1
      match listObjectsLoop [] res.1.pages res.1.tailErr with
      | .ok objects =>
          { ret := .ok objects, self := p,
            log := ["Successfully listed " ++ toString objects.length ++ " objects in " ++ bucket_name],
            post := res.2 }
      | .error (.clientError m) =>
          { ret := .ok [], self := p,
            log := ["Failed to list objects: " ++ m], post := res.2 }
      | .error e =>
          { ret := .error e, self := p, log := [], post := res.2 }

/-- Concatenation of the `Key` fields of all pages, preserving page order and
within-page order (the specification-side description of `list_objects`). -/
def concatKeys : List Page → List String
  | [] => []
  | page :: rest => pageKeys page ++ concatKeys rest

/-- Page-order/within-page-order concatenation splits over list append. -/
theorem concatKeys_append (xs ys : List Page) :
    concatKeys (xs ++ ys) = concatKeys xs ++ concatKeys ys := by
  induction xs with
  | nil => simp [concatKeys]
  | cons page rest ih => simp [concatKeys, ih]

/-- When the page iterator raises no error, the accumulation loop returns the
accumulator followed by the concatenation of all pages' keys. -/
theorem listObjectsLoop_none (pages : List Page) (acc : List String) :
    listObjectsLoop acc pages none = .ok (acc ++ concatKeys pages) := by
  induction pages generalizing acc with
  | nil => simp [listObjectsLoop, concatKeys]
  | cons page rest ih => simp [listObjectsLoop, concatKeys, ih]

/-- When the page iterator raises after its pages, the loop propagates the
exception and the accumulated keys are lost. -/
theorem listObjectsLoop_err (pages : List Page) (acc : List String) (e : PyExc) :
    listObjectsLoop acc pages (some e) = .error e := by
  induction pages generalizing acc with
  | nil => rfl
  | cons page rest ih => simp [listObjectsLoop, ih]

/-- A concrete client over a trivial world: every transfer succeeds,
`list_buckets` answers with the given entries, and pagination yields the given
page stream.  Used to instantiate theorems at concrete inputs. -/
def pureClient (entries : List BucketEntry) (stream : PageStream) : S3ClientModel Unit where
  upload_file := fun _ _ _ s => (.ok (), s)
  download_file := fun _ _ _ s => (.ok (), s)
  get_object := fun _ _ s => (.ok [], s)
  list_buckets := fun s => (.ok { buckets := entries }, s)
  get_paginator := fun _ s => (.ok { paginate := fun _ _ t => (stream, t) }, s)

/-- Facade over `pureClient`. -/
def purePipe (entries : List BucketEntry) (stream : PageStream) : S3Pipeline Unit :=
  { logger := { name := "src.S3Pipeline" }, s3_client := pureClient entries stream }

/-- A concrete client whose every operation raises `ClientError`, as in the
failure branches of the repository's test-suite. -/
def failClient : S3ClientModel Unit where
  upload_file := fun _ _ _ s => (.error (.clientError "Access Denied"), s)
  download_file := fun _ _ _ s => (.error (.clientError "Not Found"), s)
  get_object := fun _ _ s => (.error (.clientError "Not Found"), s)
  list_buckets := fun s => (.error (.clientError "Access Denied"), s)
  get_paginator := fun _ s => (.error (.clientError "Access Denied"), s)

/-- Facade over `failClient`. -/
def failPipe : S3Pipeline Unit :=
  { logger := { name := "src.S3Pipeline" }, s3_client := failClient }

/-- Mocked service boundary for the round-trip property: the world holds a
local filesystem and a remote object store keyed by (bucket, key). -/
structure MockWorld where
  localFs : String → Option Bytes
  remote : String → String → Option Bytes

/-- Mock SDK client over `MockWorld`: `upload_file` stores the local file's
bytes under (bucket, key); `download_file` writes the stored bytes to the
local path; `get_object` returns the stored bytes; missing entries raise. -/
def mockClient : S3ClientModel MockWorld where
  upload_file := fun file_path bucket key w =>
    match w.localFs file_path with
    | some bs =>
        (.ok (), { w with
          remote := fun b2 k2 => if b2 = bucket ∧ k2 = key then some bs else w.remote b2 k2 })
    | none => (.error (.otherError "No such file or directory"), w)
  download_file := fun bucket key file_path w =>
    match w.remote bucket key with
    | some bs =>
        (.ok (), { w with
          localFs := fun p2 => if p2 = file_path then some bs else w.localFs p2 })
    | none => (.error (.clientError "Not Found"), w)
  get_object := fun bucket key w =>
    match w.remote bucket key with
    | some bs => (.ok bs, w)
    | none => (.error (.clientError "NoSuchKey"), w)
  list_buckets := fun w => (.ok { buckets := [] }, w)
  get_paginator := fun _ w =>
    (.ok { paginate := fun _ _ w2 => ({ pages := [], tailErr := none }, w2) }, w)

/-- Facade over the mocked boundary. -/
def mockPipe : S3Pipeline MockWorld :=
  { logger := { name := "src.S3Pipeline" }, s3_client := mockClient }

/-- A concrete mock world with one local file and an empty remote store. -/
def mockW0 : MockWorld :=
  { localFs := fun _ => some [104, 101, 108, 108, 111], remote := fun _ _ => none }

/-- Carry an invocation counter beside the world state, untouched by
pagination. -/
def Paginator.liftCount {σ : Type} (pag : Paginator σ) : Paginator (σ × Nat) where
  paginate := fun b pfx sn =>
    let r := pag.paginate b pfx sn.1
    (r.1, (r.2, sn.2))

/-- Instrumented client: behaves exactly like `c`, and additionally increments
a counter exactly when the SDK upload transfer is invoked. -/
def countUploads {σ : Type} (c : S3ClientModel σ) : S3ClientModel (σ × Nat) where
  upload_file := fun fp b k sn =>
    let r := c.upload_file fp b k sn.1
    (r.1, (r.2, sn.2 + 1))
  download_file := fun b k fp sn =>
    let r := c.download_file b k fp sn.1
    (r.1, (r.2, sn.2))
  get_object := fun b k sn =>
    let r := c.get_object b k sn.1
    (r.1, (r.2, sn.2))
  list_buckets := fun sn =>
    let r := c.list_buckets sn.1
    (r.1, (r.2, sn.2))
  get_paginator := fun nm sn =>
    let r := c.get_paginator nm sn.1
    ((match r.1 with
      | .ok pag => .ok pag.liftCount
      | .error e => .error e), (r.2, sn.2))

/-- Instrumented client: behaves exactly like `c`, and additionally increments
a counter exactly when the SDK download transfer is invoked. -/
def countDownloads {σ : Type} (c : S3ClientModel σ) : S3ClientModel (σ × Nat) where
  upload_file := fun fp b k sn =>
    let r := c.upload_file fp b k sn.1
    (r.1, (r.2, sn.2))
  download_file := fun b k fp sn =>
    let r := c.download_file b k fp sn.1
    (r.1, (r.2, sn.2 + 1))
  get_object := fun b k sn =>
    let r := c.get_object b k sn.1
    (r.1, (r.2, sn.2))
  list_buckets := fun sn =>
    let r := c.list_buckets sn.1
    (r.1, (r.2, sn.2))
  get_paginator := fun nm sn =>
    let r := c.get_paginator nm sn.1
    ((match r.1 with
      | .ok pag => .ok pag.liftCount
      | .error e => .error e), (r.2, sn.2))

/-- C5: for every (local path, bucket, remote key), `upload_file` returns
`True` when the underlying SDK put succeeds and `False` on any
service-reported (`ClientError`) failure without raising; symmetrically,
`download_file` returns `True` when the SDK get succeeds and `False` on any
service-reported failure. -/
theorem upload_download_bool_contract :
    (∀ (σ : Type) (p : S3Pipeline σ) (fp b : String) (obj : Option String) (s : σ)
       (u : Unit) (s1 : σ),
       p.s3_client.upload_file fp b (obj.getD fp) s = (.ok u, s1) →
       (p.upload_file fp b obj s).ret = .ok true)
  ∧ (∀ (σ : Type) (p : S3Pipeline σ) (fp b : String) (obj : Option String) (s : σ)
       (m : String) (s1 : σ),
       p.s3_client.upload_file fp b (obj.getD fp) s = (.error (.clientError m), s1) →
       (p.upload_file fp b obj s).ret = .ok false)
  ∧ (∀ (σ : Type) (p : S3Pipeline σ) (b k fp : String) (s : σ) (u : Unit) (s1 : σ),
       p.s3_client.download_file b k fp s = (.ok u, s1) →
       (p.download_file b k fp s).ret = .ok true)
  ∧ (∀ (σ : Type) (p : S3Pipeline σ) (b k fp : String) (s : σ) (m : String) (s1 : σ),
       p.s3_client.download_file b k fp s = (.error (.clientError m), s1) →
       (p.download_file b k fp s).ret = .ok false) := by
  refine ⟨?_, ?_, ?_, ?_⟩
  · intro σ p fp b obj s u s1 h
    simp [S3Pipeline.upload_file, h]
  · intro σ p fp b obj s m s1 h
    simp [S3Pipeline.upload_file, h]
  · intro σ p b k fp s u s1 h
    simp [S3Pipeline.download_file, h]
  · intro σ p b k fp s m s1 h
    simp [S3Pipeline.download_file, h]

/-- Witness for C5 at concrete inputs: a succeeding client yields `True`, the
all-failing client yields `False`, for both transfers. -/
theorem upload_download_bool_contract_witness :
    ((purePipe [] { pages := [], tailErr := none }).upload_file "test.txt" "test-bucket" (some "test-object.txt") ()).ret = .ok true
  ∧ (failPipe.upload_file "test.txt" "test-bucket" (some "test-object.txt") ()).ret = .ok false
  ∧ ((purePipe [] { pages := [], tailErr := none }).download_file "test-bucket" "test-object.txt" "local-test.txt" ()).ret = .ok true
  ∧ (failPipe.download_file "test-bucket" "test-object.txt" "local-test.txt" ()).ret = .ok false :=
  ⟨upload_download_bool_contract.1 Unit _ "test.txt" "test-bucket" (some "test-object.txt") () () () rfl,
   upload_download_bool_contract.2.1 Unit failPipe "test.txt" "test-bucket" (some "test-object.txt") () "Access Denied" () rfl,
   upload_download_bool_contract.2.2.1 Unit _ "test-bucket" "test-object.txt" "local-test.txt" () () () rfl,
   upload_download_bool_contract.2.2.2 Unit failPipe "test-bucket" "test-object.txt" "local-test.txt" () "Not Found" () rfl⟩

/-- C6: `list_buckets` returns the `Name` field of each entry of the
response's `Buckets` list in service order; the response with names
`bucket1`, `bucket2` yields exactly those names in order; any
service-reported failure yields the empty sequence. -/
theorem list_buckets_contract :
    (∀ (σ : Type) (p : S3Pipeline σ) (s : σ) (resp : ListBucketsResponse) (s1 : σ),
       p.s3_client.list_buckets s = (.ok resp, s1) →
       (p.list_buckets s).ret = .ok (resp.buckets.map (fun e => e.name)))
  ∧ (∀ (σ : Type) (p : S3Pipeline σ) (s : σ) (m : String) (s1 : σ),
       p.s3_client.list_buckets s = (.error (.clientError m), s1) →
       (p.list_buckets s).ret = .ok [])
  ∧ ((purePipe [{ name := "bucket1" }, { name := "bucket2" }]
        { pages := [], tailErr := none }).list_buckets ()).ret = .ok ["bucket1", "bucket2"] := by
  refine ⟨?_, ?_, ?_⟩
  · intro σ p s resp s1 h
    simp [S3Pipeline.list_buckets, h]
  · intro σ p s m s1 h
    simp [S3Pipeline.list_buckets, h]
  · rfl

/-- Witness for C6: the failing client yields the empty list, and the
two-bucket response yields both names via the general clause. -/
theorem list_buckets_contract_witness :
    (failPipe.list_buckets ()).ret = .ok []
  ∧ ((purePipe [{ name := "bucket1" }, { name := "bucket2" }]
        { pages := [], tailErr := none }).list_buckets ()).ret
      = .ok (([{ name := "bucket1" }, { name := "bucket2" }] : List BucketEntry).map (fun e => e.name)) :=
  ⟨list_buckets_contract.2.1 Unit failPipe () "Access Denied" () rfl,
   list_buckets_contract.1 Unit _ () { buckets := [{ name := "bucket1" }, { name := "bucket2" }] } () rfl⟩

/-- C10: `list_objects` is atomic on error: when the page iterator raises a
service error after any number of pages were already accumulated, the
partially collected keys are discarded and the empty sequence is returned. -/
theorem list_objects_atomic_on_error :
    ∀ (σ : Type) (p : S3Pipeline σ) (b pfx : String) (s : σ) (pag : Paginator σ)
      (s1 : σ) (m : String),
      p.s3_client.get_paginator "list_objects_v2" s = (.ok pag, s1) →
      ((pag.paginate b pfx s1).1).tailErr = some (.clientError m) →
      (p.list_objects b pfx s).ret = .ok [] := by
  intro σ p b pfx s pag s1 m hpag htail
  simp [S3Pipeline.list_objects, hpag, htail, listObjectsLoop_err]

/-- Witness for C10: a stream that delivers a non-empty page and then raises
still yields the empty sequence. -/
theorem list_objects_atomic_on_error_witness :
    ((purePipe [] { pages := [{ contents := some [{ key := "object1" }] }],
                    tailErr := some (.clientError "Access Denied") }).list_objects
        "test-bucket" "test/" ()).ret = .ok [] :=
  list_objects_atomic_on_error Unit _ "test-bucket" "test/" () _ () "Access Denied" rfl rfl

/-- C9: every public operation leaves the facade's attributes unchanged — the
object after any call is the object before it, so the client handle and logger
established at construction are never mutated and each call is independent. -/
theorem facade_attributes_immutable :
    ∀ (σ : Type) (p : S3Pipeline σ) (fp b k pfx : String) (obj : Option String)
      (pd : Bytes → σ → Except PyExc DataFrame × σ) (s : σ),
      (p.upload_file fp b obj s).self = p
      ∧ (p.download_file b k fp s).self = p
      ∧ (p.read_csv_to_dataframe pd b k s).self = p
      ∧ (p.list_buckets s).self = p
      ∧ (p.list_objects b pfx s).self = p := by
  intro σ p fp b k pfx obj pd s
  refine ⟨?_, ?_, ?_, ?_, ?_⟩
  · rcases h : p.s3_client.upload_file fp b (obj.getD fp) s with ⟨r, s1⟩
    cases r with
    | ok u => simp [S3Pipeline.upload_file, h]
    | error e => cases e <;> simp [S3Pipeline.upload_file, h]
  · rcases h : p.s3_client.download_file b k fp s with ⟨r, s1⟩
    cases r with
    | ok u => simp [S3Pipeline.download_file, h]
    | error e => cases e <;> simp [S3Pipeline.download_file, h]
  · rcases h : p.s3_client.get_object b k s with ⟨r, s1⟩
    cases r with
    | ok bs =>
        rcases h2 : pd bs s1 with ⟨r2, s2⟩
        cases r2 with
        | ok df => simp [S3Pipeline.read_csv_to_dataframe, h, h2]
        | error e2 => cases e2 <;> simp [S3Pipeline.read_csv_to_dataframe, h, h2]
    | error e => cases e <;> simp [S3Pipeline.read_csv_to_dataframe, h]
  · rcases h : p.s3_client.list_buckets s with ⟨r, s1⟩
    cases r with
    | ok resp => simp [S3Pipeline.list_buckets, h]
    | error e => cases e <;> simp [S3Pipeline.list_buckets, h]
  · rcases h : p.s3_client.get_paginator "list_objects_v2" s with ⟨r, s1⟩
    cases r with
    | ok pag =>
        rcases hl : listObjectsLoop [] (pag.paginate b pfx s1).1.pages
            (pag.paginate b pfx s1).1.tailErr with e2 | r2
        · cases e2 <;> simp [S3Pipeline.list_objects, h, hl]
        · simp [S3Pipeline.list_objects, h, hl]
    | error e => cases e <;> simp [S3Pipeline.list_objects, h]

/-- C1: construction is the only operation that propagates an error — a
failing `boto3.client` call makes `__init__` re-raise, while every other
public operation converts a service-native failure (`ClientError`) from the
underlying call into its documented sentinel: `False` for the transfers,
absent (`None`, in fact for any exception) for the CSV reader, and the empty
sequence for the two listings, whether the listing error arises at paginator
construction or mid-iteration. -/
theorem construction_only_propagates :
    (∀ (σ : Type) (boto3_client : String → Except PyExc (S3ClientModel σ)) (e : PyExc),
       boto3_client "s3" = .error e → (S3Pipeline.init boto3_client).1 = .error e)
  ∧ (∀ (σ : Type) (p : S3Pipeline σ) (fp b : String) (obj : Option String) (s : σ)
       (m : String) (s1 : σ),
       p.s3_client.upload_file fp b (obj.getD fp) s = (.error (.clientError m), s1) →
       (p.upload_file fp b obj s).ret = .ok false)
  ∧ (∀ (σ : Type) (p : S3Pipeline σ) (b k fp : String) (s : σ) (m : String) (s1 : σ),
       p.s3_client.download_file b k fp s = (.error (.clientError m), s1) →
       (p.download_file b k fp s).ret = .ok false)
  ∧ (∀ (σ : Type) (p : S3Pipeline σ) (pd : Bytes → σ → Except PyExc DataFrame × σ)
       (b k : String) (s : σ), ∃ v, (p.read_csv_to_dataframe pd b k s).ret = .ok v)
  ∧ (∀ (σ : Type) (p : S3Pipeline σ) (s : σ) (m : String) (s1 : σ),
       p.s3_client.list_buckets s = (.error (.clientError m), s1) →
       (p.list_buckets s).ret = .ok [])
  ∧ (∀ (σ : Type) (p : S3Pipeline σ) (b pfx : String) (s : σ) (m : String) (s1 : σ),
       p.s3_client.get_paginator "list_objects_v2" s = (.error (.clientError m), s1) →
       (p.list_objects b pfx s).ret = .ok [])
  ∧ (∀ (σ : Type) (p : S3Pipeline σ) (b pfx : String) (s : σ) (pag : Paginator σ)
       (s1 : σ) (m : String),
       p.s3_client.get_paginator "list_objects_v2" s = (.ok pag, s1) →
       ((pag.paginate b pfx s1).1).tailErr = some (.clientError m) →
       (p.list_objects b pfx s).ret = .ok []) := by
  refine ⟨?_, ?_, ?_, ?_, ?_, ?_, ?_⟩
  · intro σ bc e h
    simp [S3Pipeline.init, h]
  · intro σ p fp b obj s m s1 h
    simp [S3Pipeline.upload_file, h]
  · intro σ p b k fp s m s1 h
    simp [S3Pipeline.download_file, h]
  · intro σ p pd b k s
    rcases h : p.s3_client.get_object b k s with ⟨r, s1⟩
    cases r with
    | ok bs =>
        rcases h2 : pd bs s1 with ⟨r2, s2⟩
        cases r2 with
        | ok df => exact ⟨some df, by simp [S3Pipeline.read_csv_to_dataframe, h, h2]⟩
        | error e2 =>
            cases e2 <;> exact ⟨none, by simp [S3Pipeline.read_csv_to_dataframe, h, h2]⟩
    | error e =>
        cases e <;> exact ⟨none, by simp [S3Pipeline.read_csv_to_dataframe, h]⟩
  · intro σ p s m s1 h
    simp [S3Pipeline.list_buckets, h]
  · intro σ p b pfx s m s1 h
    simp [S3Pipeline.list_objects, h]
  · intro σ p b pfx s pag s1 m hpag htail
    simp [S3Pipeline.list_objects, hpag, htail, listObjectsLoop_err]

/-- Witness for C1 at concrete inputs: construction propagates a concrete
error, while each operation over the all-failing client returns its sentinel. -/
theorem construction_only_propagates_witness :
    (@S3Pipeline.init Unit (fun _ => .error (.otherError "Connection error"))).1
        = .error (.otherError "Connection error")
  ∧ (failPipe.upload_file "test.txt" "test-bucket" none ()).ret = .ok false
  ∧ (failPipe.download_file "test-bucket" "test-object.txt" "local-test.txt" ()).ret = .ok false
  ∧ (∃ v, (failPipe.read_csv_to_dataframe (fun _ s => (.ok { rows := [] }, s)) "test-bucket" "test.csv" ()).ret = .ok v)
  ∧ (failPipe.list_buckets ()).ret = .ok []
  ∧ (failPipe.list_objects "test-bucket" "test/" ()).ret = .ok [] :=
  ⟨construction_only_propagates.1 Unit (fun _ => .error (.otherError "Connection error")) _ rfl,
   construction_only_propagates.2.1 Unit failPipe "test.txt" "test-bucket" none () "Access Denied" () rfl,
   construction_only_propagates.2.2.1 Unit failPipe "test-bucket" "test-object.txt" "local-test.txt" () "Not Found" () rfl,
   construction_only_propagates.2.2.2.1 Unit failPipe (fun _ s => (.ok { rows := [] }, s)) "test-bucket" "test.csv" (),
   construction_only_propagates.2.2.2.2.1 Unit failPipe () "Access Denied" () rfl,
   construction_only_propagates.2.2.2.2.2.1 Unit failPipe "test-bucket" "test/" () "Access Denied" () rfl⟩

/-- C2: `list_objects` returns the concatenation of the pages' `Key` fields in
page order and within-page order; the two-page example yields `[k1, k2, k3]`;
a page without a `Contents` key contributes nothing; and a service error at
paginator construction yields the empty sequence. -/
theorem list_objects_flattens_pages :
    (∀ (σ : Type) (p : S3Pipeline σ) (b pfx : String) (s : σ) (pag : Paginator σ) (s1 : σ),
       p.s3_client.get_paginator "list_objects_v2" s = (.ok pag, s1) →
       ((pag.paginate b pfx s1).1).tailErr = none →
       (p.list_objects b pfx s).ret = .ok (concatKeys (pag.paginate b pfx s1).1.pages))
  ∧ (∀ k1 k2 k3 : String,
       ((purePipe [] { pages := [{ contents := some [{ key := k1 }, { key := k2 }] },
                                 { contents := some [{ key := k3 }] }],
                       tailErr := none }).list_objects "test-bucket" "test/" ()).ret
         = .ok [k1, k2, k3])
  ∧ (∀ (ps1 ps2 : List Page) (b pfx : String),
       ((purePipe [] { pages := ps1 ++ { contents := none } :: ps2,
                       tailErr := none }).list_objects b pfx ()).ret
         = .ok (concatKeys (ps1 ++ ps2)))
  ∧ (∀ (σ : Type) (p : S3Pipeline σ) (b pfx : String) (s : σ) (m : String) (s1 : σ),
       p.s3_client.get_paginator "list_objects_v2" s = (.error (.clientError m), s1) →
       (p.list_objects b pfx s).ret = .ok []) := by
  refine ⟨?_, ?_, ?_, ?_⟩
  · intro σ p b pfx s pag s1 hpag htail
    simp [S3Pipeline.list_objects, hpag, htail, listObjectsLoop_none]
  · intro k1 k2 k3
    rfl
  · intro ps1 ps2 b pfx
    simp [S3Pipeline.list_objects, purePipe, pureClient, listObjectsLoop_none,
      concatKeys_append, concatKeys, pageKeys]
  · intro σ p b pfx s m s1 h
    simp [S3Pipeline.list_objects, h]

/-- Witness for C2: concrete two-page flattening and a concrete
paginator-construction failure. -/
theorem list_objects_flattens_pages_witness :
    ((purePipe [] { pages := [{ contents := some [{ key := "object1" }, { key := "object2" }] },
                              { contents := some [{ key := "object3" }] }],
                    tailErr := none }).list_objects "test-bucket" "test/" ()).ret
      = .ok ["object1", "object2", "object3"]
  ∧ (failPipe.list_objects "test-bucket" "" ()).ret = .ok [] :=
  ⟨list_objects_flattens_pages.2.1 "object1" "object2" "object3",
   list_objects_flattens_pages.2.2.2 Unit failPipe "test-bucket" "" () "Access Denied" () rfl⟩

/-- C3: `read_csv_to_dataframe` returns absent exactly when one of the three
failure classes occurs — the service get call raises, the decoder reports no
data (`EmptyDataError`, the empty-content case), or decoding raises for any
other reason — and all three collapse to the same `None` return value. -/
theorem read_csv_absent_iff_failure :
    ∀ (σ : Type) (p : S3Pipeline σ) (pd : Bytes → σ → Except PyExc DataFrame × σ)
      (b k : String) (s : σ),
      (p.read_csv_to_dataframe pd b k s).ret = .ok none ↔
        (∃ e s1, p.s3_client.get_object b k s = (.error e, s1))
        ∨ (∃ bs s1 s2, p.s3_client.get_object b k s = (.ok bs, s1) ∧
             pd bs s1 = (.error .emptyDataError, s2))
        ∨ (∃ bs s1 e s2, p.s3_client.get_object b k s = (.ok bs, s1) ∧
             pd bs s1 = (.error e, s2) ∧ e ≠ .emptyDataError) := by
  intro σ p pd b k s
  rcases hg : p.s3_client.get_object b k s with ⟨r, s1⟩
  cases r with
  | error e =>
      have hL : (p.read_csv_to_dataframe pd b k s).ret = .ok none := by
        cases e <;> simp [S3Pipeline.read_csv_to_dataframe, hg]
      exact ⟨fun _ => .inl ⟨e, s1, rfl⟩, fun _ => hL⟩
  | ok bs =>
      rcases hp : pd bs s1 with ⟨r2, s2⟩
      cases r2 with
      | ok df =>
          have hL : (p.read_csv_to_dataframe pd b k s).ret = .ok (some df) := by
            simp [S3Pipeline.read_csv_to_dataframe, hg, hp]
          constructor
          · intro h
            rw [hL] at h
            simp at h
          · rintro (⟨e, s1x, hge⟩ | ⟨bsx, s1x, s2x, hgo, hpe⟩ |
                ⟨bsx, s1x, e, s2x, hgo, hpe, hne⟩)
            · simp at hge
            · simp only [Prod.mk.injEq, Except.ok.injEq] at hgo
              obtain ⟨rfl, rfl⟩ := hgo
              rw [hp] at hpe
              simp at hpe
            · simp only [Prod.mk.injEq, Except.ok.injEq] at hgo
              obtain ⟨rfl, rfl⟩ := hgo
              rw [hp] at hpe
              simp at hpe
      | error e2 =>
          have hL : (p.read_csv_to_dataframe pd b k s).ret = .ok none := by
            cases e2 <;> simp [S3Pipeline.read_csv_to_dataframe, hg, hp]
          cases e2 with
          | emptyDataError => exact ⟨fun _ => .inr (.inl ⟨bs, s1, s2, rfl, hp⟩), fun _ => hL⟩
          | clientError m =>
              exact ⟨fun _ => .inr (.inr ⟨bs, s1, .clientError m, s2, rfl, hp, nofun⟩),
                fun _ => hL⟩
          | otherError m =>
              exact ⟨fun _ => .inr (.inr ⟨bs, s1, .otherError m, s2, rfl, hp, nofun⟩),
                fun _ => hL⟩

/-- Witness for C3: over the all-failing client (a concrete service-error
input), the reader's return value is the absent sentinel, obtained from the
failure-class characterisation. -/
theorem read_csv_absent_iff_failure_witness :
    (failPipe.read_csv_to_dataframe (fun _ s => (.ok { rows := [] }, s))
        "test-bucket" "nonexistent.csv" ()).ret = .ok none :=
  (read_csv_absent_iff_failure Unit failPipe (fun _ s => (.ok { rows := [] }, s))
      "test-bucket" "nonexistent.csv" ()).mpr (.inl ⟨.clientError "Not Found", (), rfl⟩)

/-- C4: when the service get call raises a service error,
`read_csv_to_dataframe` returns absent, its post-state is exactly the state
the failing get call left (no decoder effect), and the outcome does not
depend on the decoder at all — the decode step is unreachable on that path. -/
theorem read_csv_error_skips_decoder :
    ∀ (σ : Type) (p : S3Pipeline σ) (b k : String) (s s1 : σ) (m : String)
      (pd pd2 : Bytes → σ → Except PyExc DataFrame × σ),
      p.s3_client.get_object b k s = (.error (.clientError m), s1) →
      (p.read_csv_to_dataframe pd b k s).ret = .ok none
      ∧ (p.read_csv_to_dataframe pd b k s).post = s1
      ∧ p.read_csv_to_dataframe pd b k s = p.read_csv_to_dataframe pd2 b k s := by
  intro σ p b k s s1 m pd pd2 h
  refine ⟨?_, ?_, ?_⟩ <;> simp [S3Pipeline.read_csv_to_dataframe, h]

/-- Witness for C4 at a concrete failing get: the absent result, the
untouched state, and decoder-independence between two distinct decoders. -/
theorem read_csv_error_skips_decoder_witness :
    (failPipe.read_csv_to_dataframe (fun _ s => (.ok { rows := [["x"]] }, s))
        "test-bucket" "test.csv" ()).ret = .ok none
    ∧ (failPipe.read_csv_to_dataframe (fun _ s => (.ok { rows := [["x"]] }, s))
        "test-bucket" "test.csv" ()).post = ()
    ∧ failPipe.read_csv_to_dataframe (fun _ s => (.ok { rows := [["x"]] }, s))
        "test-bucket" "test.csv" ()
      = failPipe.read_csv_to_dataframe (fun _ s => (.error .emptyDataError, s))
        "test-bucket" "test.csv" () :=
  read_csv_error_skips_decoder Unit failPipe "test-bucket" "test.csv" () () "Not Found"
    (fun _ s => (.ok { rows := [["x"]] }, s)) (fun _ s => (.error .emptyDataError, s)) rfl

/-- C7: over the mocked service boundary that stores what was put and returns
it on get, uploading a local file and then downloading with the matching
bucket and key writes back exactly the original bytes. -/
theorem upload_download_roundtrip :
    ∀ (w : MockWorld) (path bucket path2 : String) (obj : Option String) (bs : Bytes),
      w.localFs path = some bs →
      (mockPipe.upload_file path bucket obj w).ret = .ok true
      ∧ (mockPipe.download_file bucket (obj.getD path) path2
          (mockPipe.upload_file path bucket obj w).post).ret = .ok true
      ∧ (mockPipe.download_file bucket (obj.getD path) path2
          (mockPipe.upload_file path bucket obj w).post).post.localFs path2 = some bs := by
  intro w path bucket path2 obj bs h
  refine ⟨?_, ?_, ?_⟩ <;>
    simp [S3Pipeline.upload_file, S3Pipeline.download_file, mockPipe, mockClient, h]

/-- Witness for C7: round-trip of the concrete bytes of `mockW0`'s file. -/
theorem upload_download_roundtrip_witness :
    (mockPipe.upload_file "test.txt" "test-bucket" (some "test-object.txt") mockW0).ret = .ok true
    ∧ (mockPipe.download_file "test-bucket" "test-object.txt" "local-test.txt"
        (mockPipe.upload_file "test.txt" "test-bucket" (some "test-object.txt") mockW0).post).ret = .ok true
    ∧ (mockPipe.download_file "test-bucket" "test-object.txt" "local-test.txt"
        (mockPipe.upload_file "test.txt" "test-bucket" (some "test-object.txt") mockW0).post).post.localFs
        "local-test.txt" = some [104, 101, 108, 108, 111] :=
  upload_download_roundtrip mockW0 "test.txt" "test-bucket" "local-test.txt"
    (some "test-object.txt") [104, 101, 108, 108, 111] rfl

/-- C8: per outer call, the underlying SDK transfer is invoked exactly once,
whatever the outcome: with the invocation-counting client, `upload_file`
advances the upload counter from `n` to `n + 1`, and `download_file` the
download counter likewise — never zero, never retried. -/
theorem transfer_invoked_exactly_once :
    (∀ (σ : Type) (c : S3ClientModel σ) (lg : Logger) (fp b : String)
       (obj : Option String) (s : σ) (n : Nat),
       (S3Pipeline.upload_file { logger := lg, s3_client := countUploads c }
           fp b obj (s, n)).post.2 = n + 1)
  ∧ (∀ (σ : Type) (c : S3ClientModel σ) (lg : Logger) (b k fp : String)
       (s : σ) (n : Nat),
       (S3Pipeline.download_file { logger := lg, s3_client := countDownloads c }
           b k fp (s, n)).post.2 = n + 1) := by
  constructor
  · intro σ c lg fp b obj s n
    rcases h : c.upload_file fp b (obj.getD fp) s with ⟨r, s1⟩
    cases r with
    | ok u => simp [S3Pipeline.upload_file, countUploads, h]
    | error e => cases e <;> simp [S3Pipeline.upload_file, countUploads, h]
  · intro σ c lg b k fp s n
    rcases h : c.download_file b k fp s with ⟨r, s1⟩
    cases r with
    | ok u => simp [S3Pipeline.download_file, countDownloads, h]
    | error e => cases e <;> simp [S3Pipeline.download_file, countDownloads, h]
